import Mathlib

/-!
Verification of the reminder/calendar data model and lifecycle of
`Regular Organizer/Organizer.py`.

The Python classes `Reminder` and `Calendar` are embedded as Lean
structures; methods become pure functions.  Side effects are made
explicit: the current wall-clock time-of-day (`datetime.datetime.now().time()`)
is a parameter, printed lines are returned as a `List String`, and file
writes are returned as a `(filename, contents)` pair.  Failures that
Python reports as exceptions (`ValueError`, `TypeError`, `AttributeError`)
are modelled with `Except String`.
-/

/-- Time of day, mirroring `datetime.time`.  Python compares `time` values
lexicographically by `(hour, minute, second, microsecond)`. -/
structure Time where
  hour : Nat
  minute : Nat
  second : Nat
  microsecond : Nat
deriving DecidableEq

/-- A point in time, mirroring `datetime.datetime`. -/
structure DateTime where
  year : Nat
  month : Nat
  day : Nat
  hour : Nat
  minute : Nat
  second : Nat
  microsecond : Nat
deriving DecidableEq

/-- The method `datetime.datetime.time()`: the time-of-day component of a
datetime, discarding the date. -/
def DateTime.time (d : DateTime) : Time :=
  { hour := d.hour, minute := d.minute, second := d.second, microsecond := d.microsecond }

/-- Python comparison `a <= b` on `datetime.time` values: lexicographic on
`(hour, minute, second, microsecond)`. -/
def Time.le (a b : Time) : Bool :=
  decide (a.hour < b.hour ∨ (a.hour = b.hour ∧ (a.minute < b.minute ∨ (a.minute = b.minute ∧
    (a.second < b.second ∨ (a.second = b.second ∧ a.microsecond ≤ b.microsecond))))))

/-- Python comparison `a < b` on `datetime.time` values: strict lexicographic. -/
def Time.lt (a b : Time) : Bool :=
  decide (a.hour < b.hour ∨ (a.hour = b.hour ∧ (a.minute < b.minute ∨ (a.minute = b.minute ∧
    (a.second < b.second ∨ (a.second = b.second ∧ a.microsecond < b.microsecond))))))

/-- The state of a `Reminder` object (all instance attributes set by
`Reminder.__init__`). -/
structure Reminder where
  title : String
  start_time : DateTime
  end_time : DateTime
  done : Bool
  triggered : Bool
  trigger_count : Nat
  done_count : Nat
  repetitions : List String
  bank_holiday_adjustment : Bool
  permanent_offset : Bool
deriving DecidableEq

/-- The constructor `Reminder.__init__`.  `repetitions` is an optional
argument defaulting to `None`; the body stores `repetitions or []`, which is
`[]` when the argument is `None` (and an empty list stays the empty list, so
`Option.getD` is an exact model).  No validation of any kind is performed on
`start_time` and `end_time`. -/
def Reminder.init (title : String) (start_time end_time : DateTime)
    (repetitions : Option (List String)) (bank_holiday_adjustment : Bool)
    (permanent_offset : Bool) : Reminder :=
  { title := title
    start_time := start_time
    end_time := end_time
    done := false
    triggered := false
    trigger_count := 0
    done_count := 0
    repetitions := repetitions.getD []
    bank_holiday_adjustment := bank_holiday_adjustment
    permanent_offset := permanent_offset }

/-- The method `Reminder.check_notification`.  The source reads
`datetime.datetime.now().time()`; that current time-of-day is the
`current_time` parameter here.  Returns the updated reminder together with
the lines printed to the console. -/
def Reminder.check_notification (r : Reminder) (current_time : Time) :
    Reminder × List String :=
  if !r.triggered && Time.le r.start_time.time current_time &&
      Time.le current_time r.end_time.time then
    ({ r with
        triggered := true
        trigger_count := r.trigger_count + 1
        done_count := if r.done then r.done_count + 1 else r.done_count },
     ["Reminder: " ++ r.title ++ " - It\x27s time!"])
  else
    (r, [])

/-- The method `Reminder.mark_as_done`: sets `done = True` and nothing else. -/
def Reminder.mark_as_done (r : Reminder) : Reminder :=
  { r with done := true }

/-- The value of `dt.strftime(%Y-%m-%d %H:%M)` determines, and is determined
by, exactly the year, month, day, hour and minute of `dt`; the formatted
string is represented by that 5-tuple of components.  Seconds and
microseconds are not part of the format and are dropped. -/
structure TimestampStr where
  year : Nat
  month : Nat
  day : Nat
  hour : Nat
  minute : Nat
deriving DecidableEq

/-- `strftime(%Y-%m-%d %H:%M)`: format a datetime, keeping the date plus
hour and minute. -/
def DateTime.strftime_YMDHM (d : DateTime) : TimestampStr :=
  { year := d.year, month := d.month, day := d.day, hour := d.hour, minute := d.minute }

/-- `datetime.datetime.strptime of %Y-%m-%d %H:%M`: parse a formatted
timestamp; the components absent from the format (second, microsecond) are
zero in the result. -/
def strptime_YMDHM (s : TimestampStr) : DateTime :=
  { year := s.year, month := s.month, day := s.day, hour := s.hour, minute := s.minute,
    second := 0, microsecond := 0 }

/-- The dictionary produced by `Reminder.serialize` (its keys and the types
of their values). -/
structure SerializedReminder where
  title : String
  start_time : TimestampStr
  end_time : TimestampStr
  repetitions : List String
  bank_holiday_adjustment : Bool
  permanent_offset : Bool
deriving DecidableEq

/-- The method `Reminder.serialize`: the six persisted fields, with the two
timestamps formatted as `%Y-%m-%d %H:%M`.  `done`, `triggered` and the two
counters are not serialized. -/
def Reminder.serialize (r : Reminder) : SerializedReminder :=
  { title := r.title
    start_time := r.start_time.strftime_YMDHM
    end_time := r.end_time.strftime_YMDHM
    repetitions := r.repetitions
    bank_holiday_adjustment := r.bank_holiday_adjustment
    permanent_offset := r.permanent_offset }

/-- The classmethod `Reminder.deserialize`: parses the two timestamps with
`strptime` and calls the constructor, so every non-persisted field takes its
`__init__` default. -/
def Reminder.deserialize (data : SerializedReminder) : Reminder :=
  Reminder.init data.title (strptime_YMDHM data.start_time) (strptime_YMDHM data.end_time)
    (some data.repetitions) data.bank_holiday_adjustment data.permanent_offset

/-- An entry of `Calendar.completed_tasks`: a dict with keys `title` and
`date` (the date already formatted as `%Y-%m-%d`). -/
structure CompletedTask where
  title : String
  date : String
deriving DecidableEq

/-- The state of a `Calendar` object as set by `Calendar.__init__`. -/
structure Calendar where
  reminders : List Reminder
  completed_tasks : List CompletedTask
deriving DecidableEq

/-- The constructor `Calendar.__init__`: both lists start empty. -/
def Calendar.init : Calendar :=
  { reminders := [], completed_tasks := [] }

/-- The two `def add_reminder` statements that appear in the body of
`class Calendar`, distinguished by their parameter lists. -/
inductive AddReminderDef where
  /-- Lines 64-65: `def add_reminder(self, reminder)`, which appends its
  argument to `self.reminders`. -/
  | programmatic
  /-- Lines 118-129: `def add_reminder(self)`, which prompts on the console
  and constructs a reminder from the input; it takes no parameter besides
  `self`. -/
  | interactive
deriving DecidableEq

/-- The `def add_reminder` statements of the class body of `Calendar`, in
source order.  Python executes a class body top to bottom and each `def`
rebinds the name in the class dict. -/
def add_reminder_defs : List AddReminderDef :=
  [AddReminderDef.programmatic, AddReminderDef.interactive]

/-- The binding the name `add_reminder` holds in the finished class dict of
`Calendar`: the last definition wins. -/
def add_reminder_binding : Option AddReminderDef :=
  add_reminder_defs.getLast?

/-- The body of the first `def add_reminder(self, reminder)` (lines 64-65):
`self.reminders.append(reminder)`. -/
def Calendar.add_reminder_programmatic (c : Calendar) (r : Reminder) : Calendar :=
  { c with reminders := c.reminders ++ [r] }

/-- The call `calendar.add_reminder(r)` with one positional argument: it
dispatches through the class dict, where `add_reminder` is bound to the last
definition.  The interactive definition accepts no positional argument
besides `self`, so the call raises `TypeError` before its body runs; only if
the programmatic definition were the binding would the argument be appended. -/
def Calendar.add_reminder (c : Calendar) (r : Reminder) : Except String Calendar :=
  match add_reminder_binding with
  | some AddReminderDef.programmatic => Except.ok (c.add_reminder_programmatic r)
  | some AddReminderDef.interactive =>
      Except.error "TypeError: add_reminder() takes 1 positional argument but 2 were given"
  | none => Except.error "AttributeError"

/-- The method `Calendar.mark_reminder_as_done`.  `datetime.date.today()`
formatted as `%Y-%m-%d` is the `today` parameter.  The reminder argument is a
separate object reference: the method calls `reminder.mark_as_done()` on it
and appends to `self.completed_tasks`; it never reads or writes
`self.reminders`.  Returns the updated calendar, the updated reminder, and
the printed lines. -/
def Calendar.mark_reminder_as_done (c : Calendar) (r : Reminder) (today : String) :
    Calendar × Reminder × List String :=
  ({ c with completed_tasks := c.completed_tasks ++ [{ title := r.title, date := today }] },
   r.mark_as_done,
   ["Reminder marked as done."])

/-- One record of the daily completion snapshot written by
`Calendar.save_completion_data`. -/
structure CompletionRecord where
  title : String
  date : String
  trigger_count : Nat
  done_count : Nat
deriving DecidableEq

/-- The `for reminder in self.reminders` loop of `save_completion_data`: for
each reminder, in order, append its record to `completion_data` and then set
`reminder.triggered = False`.  Returns the accumulated records and the
updated reminders. -/
def save_completion_loop (today : String) :
    List Reminder → List CompletionRecord × List Reminder
  | [] => ([], [])
  | r :: rest =>
      let entry : CompletionRecord :=
        { title := r.title, date := today, trigger_count := r.trigger_count,
          done_count := r.done_count }
      let (recs, rems) := save_completion_loop today rest
      (entry :: recs, { r with triggered := false } :: rems)

/-- The method `Calendar.save_completion_data`.  `today` is
`datetime.date.today().strftime(%Y-%m-%d)`.  Returns the updated calendar,
the `(filename, contents)` pair written to disk, and the printed lines. -/
def Calendar.save_completion_data (c : Calendar) (today : String) :
    Calendar × (String × List CompletionRecord) × List String :=
  let (completion_data, reminders) := save_completion_loop today c.reminders
  ({ c with reminders := reminders },
   ("completion_data_" ++ today ++ ".json", completion_data),
   ["Completion data saved."])

/-- The JSON document handled by `Calendar.serialize` /
`save_reminders_to_file` / `load_reminders_from_file`. -/
structure CalendarData where
  reminders : List SerializedReminder
  completed_tasks : List CompletedTask
deriving DecidableEq

/-- The method `Calendar.serialize`: serialize every reminder, keep
`completed_tasks` as is. -/
def Calendar.serialize (c : Calendar) : CalendarData :=
  { reminders := c.reminders.map Reminder.serialize,
    completed_tasks := c.completed_tasks }

/-- The method `Calendar.save_reminders_to_file`: dumps `self.serialize()`
to the named file, returned as a `(filename, contents)` pair. -/
def Calendar.save_reminders_to_file (c : Calendar) (filename : String) :
    String × CalendarData :=
  (filename, c.serialize)

/-- The names bound in the class dict of `Calendar` by its class body, in
source order (`add_reminder` is bound twice). -/
def calendarMethods : List String :=
  ["__init__", "add_reminder", "remove_reminder", "mark_reminder_as_done",
   "save_completion_data", "serialize", "save_reminders_to_file",
   "load_reminders_from_file", "start_clock", "add_reminder"]

/-- The classmethod `Calendar.load_reminders_from_file`: after reading and
parsing the file it evaluates `cls.deserialize(data)`.  The class body of
`Calendar` binds no name `deserialize` (see `calendarMethods`), so the
attribute lookup raises `AttributeError` before any `Calendar` is built,
whatever the file holds. -/
def Calendar.load_reminders_from_file (data : CalendarData) : Except String Calendar :=
  Except.error
    "AttributeError: type object \x27Calendar\x27 has no attribute \x27deserialize\x27"

/-- A Python object reference to a `Reminder`: an identity (address) plus
the object state.  `Reminder` defines no `__eq__`, so `==` between two
`Reminder` objects falls back to `object.__eq__`, which is identity. -/
structure ReminderRef where
  addr : Nat
  state : Reminder
deriving DecidableEq

/-- Python `==` on two `Reminder` object references: identity comparison
(default `object.__eq__`, since `Reminder` overrides nothing). -/
def ReminderRef.pyEq (a b : ReminderRef) : Bool :=
  a.addr == b.addr

/-- `list.remove(x)`: remove the first element that compares equal (Python
`==`) to `x`; raise `ValueError` when none does. -/
def listRemove (eq : α → α → Bool) : List α → α → Except String (List α)
  | [], _ => Except.error "ValueError: list.remove(x): x not in list"
  | y :: ys, x =>
      if eq y x then Except.ok ys
      else
        match listRemove eq ys x with
        | Except.ok zs => Except.ok (y :: zs)
        | Except.error e => Except.error e

/-- The method `Calendar.remove_reminder`: `self.reminders.remove(reminder)`.
Because equality between `Reminder` objects is identity, `self.reminders` is
modelled at the object-reference level here. -/
def Calendar.remove_reminder (reminders : List ReminderRef) (r : ReminderRef) :
    Except String (List ReminderRef) :=
  listRemove ReminderRef.pyEq reminders r

example : Time.le ⟨14, 0, 0, 0⟩ ⟨14, 30, 0, 0⟩ = true := by decide
example : Time.le ⟨14, 30, 0, 0⟩ ⟨15, 0, 0, 0⟩ = true := by decide
example : Time.lt ⟨15, 0, 0, 0⟩ ⟨14, 0, 0, 0⟩ = false := by decide
example : add_reminder_binding = some AddReminderDef.interactive := by decide
example : calendarMethods.contains "deserialize" = false := by decide

/-- The lexicographic order on times is transitive. -/
theorem Time.le_trans {a b c : Time} (hab : Time.le a b = true)
    (hbc : Time.le b c = true) : Time.le a c = true := by
  simp only [Time.le, decide_eq_true_eq] at hab hbc ⊢
  omega

/-- A time strictly below another is not above or equal to it. -/
theorem Time.lt_le_absurd {a b : Time} (hlt : Time.lt a b = true)
    (hle : Time.le b a = true) : False := by
  simp only [Time.lt, Time.le, decide_eq_true_eq] at hlt hle
  omega

/-- C3: for every Reminder `r` whose `start_time` and `end_time` have zero
seconds (the seconds reading, microseconds included, is zero — the format
`%Y-%m-%d %H:%M` keeps nothing below the minute),
`Reminder.deserialize(r.serialize())` yields a Reminder with the same
`title`, `start_time`, `end_time`, `repetitions`, `bank_holiday_adjustment`
and `permanent_offset`, and with `done = false`, `triggered = false`,
`trigger_count = 0`, `done_count = 0` regardless of the values those four
fields have in `r`. -/
theorem C3_reminder_roundtrip (r : Reminder)
    (hs : r.start_time.second = 0) (hsu : r.start_time.microsecond = 0)
    (he : r.end_time.second = 0) (heu : r.end_time.microsecond = 0) :
    (Reminder.deserialize r.serialize).title = r.title ∧
    (Reminder.deserialize r.serialize).start_time = r.start_time ∧
    (Reminder.deserialize r.serialize).end_time = r.end_time ∧
    (Reminder.deserialize r.serialize).repetitions = r.repetitions ∧
    (Reminder.deserialize r.serialize).bank_holiday_adjustment = r.bank_holiday_adjustment ∧
    (Reminder.deserialize r.serialize).permanent_offset = r.permanent_offset ∧
    (Reminder.deserialize r.serialize).done = false ∧
    (Reminder.deserialize r.serialize).triggered = false ∧
    (Reminder.deserialize r.serialize).trigger_count = 0 ∧
    (Reminder.deserialize r.serialize).done_count = 0 := by
  obtain ⟨t, s, e, d, tr, tc, dc, reps, bha, po⟩ := r
  obtain ⟨sy, smo, sd, sh, smi, ss, su⟩ := s
  obtain ⟨ey, emo, ed, eh, emi, es, eu⟩ := e
  simp only at hs hsu he heu
  subst hs hsu he heu
  simp [Reminder.deserialize, Reminder.serialize, Reminder.init,
    strptime_YMDHM, DateTime.strftime_YMDHM]

/-- Witness for C3 at a concrete reminder whose trigger state is not at the
defaults: the round trip keeps the six persisted fields and resets the other
four. -/
theorem C3_reminder_roundtrip_witness :
    (Reminder.deserialize
        (Reminder.serialize
          { title := "Meeting", start_time := ⟨2023, 6, 7, 14, 0, 0, 0⟩,
            end_time := ⟨2023, 6, 7, 15, 0, 0, 0⟩, done := true, triggered := true,
            trigger_count := 3, done_count := 2, repetitions := ["Monday"],
            bank_holiday_adjustment := true, permanent_offset := false })).title
      = "Meeting" ∧
    (Reminder.deserialize
        (Reminder.serialize
          { title := "Meeting", start_time := ⟨2023, 6, 7, 14, 0, 0, 0⟩,
            end_time := ⟨2023, 6, 7, 15, 0, 0, 0⟩, done := true, triggered := true,
            trigger_count := 3, done_count := 2, repetitions := ["Monday"],
            bank_holiday_adjustment := true, permanent_offset := false })).trigger_count
      = 0 := by
  have h := C3_reminder_roundtrip
    { title := "Meeting", start_time := ⟨2023, 6, 7, 14, 0, 0, 0⟩,
      end_time := ⟨2023, 6, 7, 15, 0, 0, 0⟩, done := true, triggered := true,
      trigger_count := 3, done_count := 2, repetitions := ["Monday"],
      bank_holiday_adjustment := true, permanent_offset := false }
    rfl rfl rfl rfl
  exact ⟨h.1, h.2.2.2.2.2.2.2.2.1⟩

/-- C6: for every Calendar `c`, Reminder `r` and current date,
`mark_reminder_as_done` sets `r.done = true`, changes no other field of `r`,
appends exactly one entry with the reminder's title and the current date to
`completed_tasks`, leaves `reminders` untouched, and prints the success
message. -/
theorem C6_mark_reminder_as_done_spec (c : Calendar) (r : Reminder) (today : String) :
    (c.mark_reminder_as_done r today).2.1.done = true ∧
    (c.mark_reminder_as_done r today).2.1.title = r.title ∧
    (c.mark_reminder_as_done r today).2.1.start_time = r.start_time ∧
    (c.mark_reminder_as_done r today).2.1.end_time = r.end_time ∧
    (c.mark_reminder_as_done r today).2.1.triggered = r.triggered ∧
    (c.mark_reminder_as_done r today).2.1.trigger_count = r.trigger_count ∧
    (c.mark_reminder_as_done r today).2.1.done_count = r.done_count ∧
    (c.mark_reminder_as_done r today).2.1.repetitions = r.repetitions ∧
    (c.mark_reminder_as_done r today).2.1.bank_holiday_adjustment
      = r.bank_holiday_adjustment ∧
    (c.mark_reminder_as_done r today).2.1.permanent_offset = r.permanent_offset ∧
    (c.mark_reminder_as_done r today).1.completed_tasks
      = c.completed_tasks ++ [{ title := r.title, date := today }] ∧
    (c.mark_reminder_as_done r today).1.reminders = c.reminders ∧
    (c.mark_reminder_as_done r today).2.2 = ["Reminder marked as done."] := by
  simp [Calendar.mark_reminder_as_done, Reminder.mark_as_done]

/-- C4: `check_notification` compares only the current time-of-day with the
time-of-day components of `start_time` and `end_time`.  When `triggered` is
false and the current time-of-day lies in the inclusive window it prints the
notification, sets `triggered = true`, increments `trigger_count` by one and
increments `done_count` by one exactly when `done` is already true, leaving
every other field alone; otherwise it changes nothing and prints nothing.
Replacing the date components of `start_time` and `end_time` (keeping their
times of day) changes neither the updated counters and flags nor the
printed output. -/
theorem C4_check_notification_spec (r : Reminder) (now : Time) :
    (r.triggered = false → Time.le r.start_time.time now = true →
      Time.le now r.end_time.time = true →
      (r.check_notification now).1.triggered = true ∧
      (r.check_notification now).1.trigger_count = r.trigger_count + 1 ∧
      (r.check_notification now).1.done_count
        = r.done_count + (if r.done then 1 else 0) ∧
      (r.check_notification now).1.done = r.done ∧
      (r.check_notification now).1.title = r.title ∧
      (r.check_notification now).1.start_time = r.start_time ∧
      (r.check_notification now).1.end_time = r.end_time ∧
      (r.check_notification now).1.repetitions = r.repetitions ∧
      (r.check_notification now).1.bank_holiday_adjustment
        = r.bank_holiday_adjustment ∧
      (r.check_notification now).1.permanent_offset = r.permanent_offset ∧
      (r.check_notification now).2
        = ["Reminder: " ++ r.title ++ " - It\x27s time!"]) ∧
    (¬ (r.triggered = false ∧ Time.le r.start_time.time now = true ∧
        Time.le now r.end_time.time = true) →
      r.check_notification now = (r, [])) ∧
    (∀ s2 e2 : DateTime, s2.time = r.start_time.time → e2.time = r.end_time.time →
      (({ r with start_time := s2, end_time := e2 } : Reminder).check_notification
          now).1.triggered = (r.check_notification now).1.triggered ∧
      (({ r with start_time := s2, end_time := e2 } : Reminder).check_notification
          now).1.trigger_count = (r.check_notification now).1.trigger_count ∧
      (({ r with start_time := s2, end_time := e2 } : Reminder).check_notification
          now).1.done_count = (r.check_notification now).1.done_count ∧
      (({ r with start_time := s2, end_time := e2 } : Reminder).check_notification
          now).2 = (r.check_notification now).2) := by
  refine ⟨?_, ?_, ?_⟩
  · intro h0 h1 h2
    rcases Bool.eq_false_or_eq_true r.done with hd | hd <;>
      simp [Reminder.check_notification, h0, h1, h2, hd]
  · intro h
    rcases Bool.eq_false_or_eq_true r.triggered with ht | ht
    · simp [Reminder.check_notification, ht]
    · rcases Bool.eq_false_or_eq_true (Time.le r.start_time.time now) with h1 | h1
      · rcases Bool.eq_false_or_eq_true (Time.le now r.end_time.time) with h2 | h2
        · exact absurd ⟨ht, h1, h2⟩ h
        · simp [Reminder.check_notification, ht, h1, h2]
      · simp [Reminder.check_notification, ht, h1]
  · intro s2 e2 hs2 he2
    simp only [Reminder.check_notification, hs2, he2]
    rcases Bool.eq_false_or_eq_true
        (!r.triggered && Time.le r.start_time.time now &&
          Time.le now r.end_time.time) with hc | hc
    · simp [hc]
    · simp [hc]

/-- Witness for C4: the spec scenario — window 14:00 to 15:00, current
time-of-day 14:30 — triggers, prints, and counts once. -/
theorem C4_check_notification_witness :
    ((Reminder.init "Meeting" ⟨2023, 6, 7, 14, 0, 0, 0⟩ ⟨2023, 6, 7, 15, 0, 0, 0⟩
        none false false).check_notification ⟨14, 30, 0, 0⟩).1.trigger_count
      = (Reminder.init "Meeting" ⟨2023, 6, 7, 14, 0, 0, 0⟩ ⟨2023, 6, 7, 15, 0, 0, 0⟩
        none false false).trigger_count + 1 ∧
    ((Reminder.init "Meeting" ⟨2023, 6, 7, 14, 0, 0, 0⟩ ⟨2023, 6, 7, 15, 0, 0, 0⟩
        none false false).check_notification ⟨14, 30, 0, 0⟩).2
      = ["Reminder: Meeting - It\x27s time!"] := by
  have h := (C4_check_notification_spec
    (Reminder.init "Meeting" ⟨2023, 6, 7, 14, 0, 0, 0⟩ ⟨2023, 6, 7, 15, 0, 0, 0⟩
      none false false) ⟨14, 30, 0, 0⟩).1 rfl (by decide) (by decide)
  exact ⟨h.2.1, h.2.2.2.2.2.2.2.2.2.2⟩

/-- C5 counterexample: a reminder whose window contains the current
time-of-day but whose `triggered` flag is already true.  Calling
`check_notification` twice leaves `trigger_count` unchanged, not incremented
exactly once as the claim states. -/
theorem C5_already_triggered_cex :
    Time.le
        ({ title := "Meeting", start_time := ⟨2023, 6, 7, 14, 0, 0, 0⟩,
           end_time := ⟨2023, 6, 7, 15, 0, 0, 0⟩, done := false, triggered := true,
           trigger_count := 5, done_count := 0, repetitions := [],
           bank_holiday_adjustment := false, permanent_offset := false }
          : Reminder).start_time.time ⟨14, 30, 0, 0⟩ = true ∧
    Time.le ⟨14, 30, 0, 0⟩
        ({ title := "Meeting", start_time := ⟨2023, 6, 7, 14, 0, 0, 0⟩,
           end_time := ⟨2023, 6, 7, 15, 0, 0, 0⟩, done := false, triggered := true,
           trigger_count := 5, done_count := 0, repetitions := [],
           bank_holiday_adjustment := false, permanent_offset := false }
          : Reminder).end_time.time = true ∧
    ¬ ((({ title := "Meeting", start_time := ⟨2023, 6, 7, 14, 0, 0, 0⟩,
           end_time := ⟨2023, 6, 7, 15, 0, 0, 0⟩, done := false, triggered := true,
           trigger_count := 5, done_count := 0, repetitions := [],
           bank_holiday_adjustment := false, permanent_offset := false }
          : Reminder).check_notification ⟨14, 30, 0, 0⟩).1.check_notification
          ⟨14, 30, 0, 0⟩).1.trigger_count = 5 + 1 := by
  refine ⟨by decide, by decide, ?_⟩
  intro h
  simp [Reminder.check_notification, Time.le] at h

/-- C5 as amended: for every Reminder whose `triggered` flag is false and
whose window contains the current time-of-day, two consecutive calls of
`check_notification` increment `trigger_count` exactly once in total, and
the second call changes no field and prints nothing, because `triggered` is
already true after the first call. -/
theorem C5_second_call_no_op (r : Reminder) (now : Time)
    (h0 : r.triggered = false)
    (h1 : Time.le r.start_time.time now = true)
    (h2 : Time.le now r.end_time.time = true) :
    (r.check_notification now).1.trigger_count = r.trigger_count + 1 ∧
    ((r.check_notification now).1.check_notification now)
      = ((r.check_notification now).1, []) := by
  constructor
  · simp [Reminder.check_notification, h0, h1, h2]
  · have hfirst : (r.check_notification now).1
        = { r with
              triggered := true
              trigger_count := r.trigger_count + 1
              done_count := (if r.done then r.done_count + 1 else r.done_count) } := by
      simp [Reminder.check_notification, h0, h1, h2]
    rw [hfirst]
    simp [Reminder.check_notification]

/-- Witness for C5 as amended: a fresh reminder with window 14:00 to 15:00
checked twice at 14:30 ends with one trigger and an unchanged second state. -/
theorem C5_second_call_no_op_witness :
    ((Reminder.init "Meeting" ⟨2023, 6, 7, 14, 0, 0, 0⟩ ⟨2023, 6, 7, 15, 0, 0, 0⟩
        none false false).check_notification ⟨14, 30, 0, 0⟩).1.trigger_count
      = (Reminder.init "Meeting" ⟨2023, 6, 7, 14, 0, 0, 0⟩ ⟨2023, 6, 7, 15, 0, 0, 0⟩
        none false false).trigger_count + 1 ∧
    (((Reminder.init "Meeting" ⟨2023, 6, 7, 14, 0, 0, 0⟩ ⟨2023, 6, 7, 15, 0, 0, 0⟩
        none false false).check_notification ⟨14, 30, 0, 0⟩).1.check_notification
        ⟨14, 30, 0, 0⟩)
      = (((Reminder.init "Meeting" ⟨2023, 6, 7, 14, 0, 0, 0⟩ ⟨2023, 6, 7, 15, 0, 0, 0⟩
        none false false).check_notification ⟨14, 30, 0, 0⟩).1, []) :=
  C5_second_call_no_op
    (Reminder.init "Meeting" ⟨2023, 6, 7, 14, 0, 0, 0⟩ ⟨2023, 6, 7, 15, 0, 0, 0⟩
      none false false) ⟨14, 30, 0, 0⟩ rfl (by decide) (by decide)

/-- The loop of `save_completion_data` builds one record per reminder, in
order, and resets `triggered` on each reminder, touching nothing else. -/
theorem save_completion_loop_eq (today : String) (l : List Reminder) :
    save_completion_loop today l
      = (l.map (fun r =>
            ({ title := r.title, date := today, trigger_count := r.trigger_count,
               done_count := r.done_count } : CompletionRecord)),
         l.map (fun r => { r with triggered := false })) := by
  induction l with
  | nil => rfl
  | cons r rest ih => simp [save_completion_loop, ih]

/-- C7: for every Calendar and current date, `save_completion_data` sets
`triggered = false` on every reminder (leaving their other fields and the
completed-task log unchanged) and writes exactly one record with the
reminder's title, the current date and its two counters, in reminder order,
to the snapshot file named after the current date. -/
theorem C7_save_completion_data_spec (c : Calendar) (today : String) :
    (c.save_completion_data today).2.1.1 = "completion_data_" ++ today ++ ".json" ∧
    (c.save_completion_data today).2.1.2
      = c.reminders.map (fun r =>
          ({ title := r.title, date := today, trigger_count := r.trigger_count,
             done_count := r.done_count } : CompletionRecord)) ∧
    (c.save_completion_data today).1.reminders
      = c.reminders.map (fun r => { r with triggered := false }) ∧
    ((c.save_completion_data today).1.reminders.all fun r => !r.triggered) = true ∧
    (c.save_completion_data today).1.completed_tasks = c.completed_tasks ∧
    (c.save_completion_data today).2.2 = ["Completion data saved."] := by
  simp [Calendar.save_completion_data, save_completion_loop_eq, List.all_eq_true]

/-- C10: `mark_reminder_as_done` never checks that its argument belongs to
the calendar: even for a reminder that is not an element of `reminders`, it
sets `done = true` on the argument, appends the completed-task entry, and
leaves the `reminders` list itself untouched. -/
theorem C10_no_membership_check (c : Calendar) (r : Reminder) (today : String)
    (hout : r ∉ c.reminders) :
    (c.mark_reminder_as_done r today).2.1.done = true ∧
    (c.mark_reminder_as_done r today).1.completed_tasks
      = c.completed_tasks ++ [{ title := r.title, date := today }] ∧
    (c.mark_reminder_as_done r today).1.reminders = c.reminders := by
  simp [Calendar.mark_reminder_as_done, Reminder.mark_as_done]

/-- Witness for C10: marking a reminder done on a calendar that does not
hold it still logs a completion entry and leaves the empty reminder list
alone. -/
theorem C10_no_membership_check_witness :
    (Reminder.init "Meeting" ⟨2023, 6, 7, 14, 0, 0, 0⟩ ⟨2023, 6, 7, 15, 0, 0, 0⟩
        none false false) ∉ Calendar.init.reminders ∧
    (Calendar.init.mark_reminder_as_done
        (Reminder.init "Meeting" ⟨2023, 6, 7, 14, 0, 0, 0⟩ ⟨2023, 6, 7, 15, 0, 0, 0⟩
          none false false) "2023-06-07").1.completed_tasks
      = [{ title := "Meeting", date := "2023-06-07" }] :=
  ⟨by decide,
   (C10_no_membership_check Calendar.init
      (Reminder.init "Meeting" ⟨2023, 6, 7, 14, 0, 0, 0⟩ ⟨2023, 6, 7, 15, 0, 0, 0⟩
        none false false) "2023-06-07" (by decide)).2.1⟩

/-- C9: nothing validates the window of a Reminder — the constructor accepts
any pair of timestamps unchanged — and a reminder whose start time-of-day is
strictly after its end time-of-day can never reach the trigger branch of
`check_notification`, whatever the current time-of-day: the call changes
nothing and prints nothing.  When instead the time-of-day window is ordered,
an untriggered reminder fires regardless of how the date components of
`start_time` and `end_time` compare. -/
theorem C9_inverted_window :
    (∀ (title : String) (s e : DateTime) (reps : Option (List String)) (bha po : Bool),
        (Reminder.init title s e reps bha po).start_time = s ∧
        (Reminder.init title s e reps bha po).end_time = e) ∧
    (∀ (r : Reminder) (now : Time),
        Time.lt r.end_time.time r.start_time.time = true →
        r.check_notification now = (r, [])) ∧
    (∀ (r : Reminder) (now : Time), r.triggered = false →
        Time.le r.start_time.time now = true → Time.le now r.end_time.time = true →
        (r.check_notification now).1.triggered = true ∧
        (r.check_notification now).1.trigger_count = r.trigger_count + 1) := by
  refine ⟨fun _ _ _ _ _ _ => ⟨rfl, rfl⟩, ?_, ?_⟩
  · intro r now hinv
    have hcond : (Time.le r.start_time.time now && Time.le now r.end_time.time) = false := by
      rcases Bool.eq_false_or_eq_true (Time.le r.start_time.time now) with h1 | h1
      · rcases Bool.eq_false_or_eq_true (Time.le now r.end_time.time) with h2 | h2
        · exact absurd (Time.le_trans h1 h2) (fun hse => Time.lt_le_absurd hinv hse)
        · simp [h1, h2]
      · simp [h1]
    simp only [Reminder.check_notification, Bool.and_assoc, hcond, Bool.and_false,
      Bool.false_eq_true, if_false]
  · intro r now h0 h1 h2
    simp [Reminder.check_notification, h0, h1, h2]

/-- Witness for C9: a reminder whose window runs from 15:00 back to 14:00 is
accepted by the constructor and never notifies, here checked at 14:30, which
lies between the two times of day. -/
theorem C9_inverted_window_witness :
    (Reminder.init "Backwards" ⟨2023, 6, 7, 15, 0, 0, 0⟩ ⟨2023, 6, 7, 14, 0, 0, 0⟩
        none false false).check_notification ⟨14, 30, 0, 0⟩
      = (Reminder.init "Backwards" ⟨2023, 6, 7, 15, 0, 0, 0⟩ ⟨2023, 6, 7, 14, 0, 0, 0⟩
          none false false, []) :=
  C9_inverted_window.2.1
    (Reminder.init "Backwards" ⟨2023, 6, 7, 15, 0, 0, 0⟩ ⟨2023, 6, 7, 14, 0, 0, 0⟩
      none false false) ⟨14, 30, 0, 0⟩ (by decide)

/-- C2 counterexample: on a concrete calendar and reminder, calling
`add_reminder` with the reminder as argument does not append it — the name
is bound to the interactive zero-argument definition, so the call raises
`TypeError` instead. -/
theorem C2_add_reminder_call_cex :
    ¬ (Calendar.init.add_reminder
          (Reminder.init "Meeting" ⟨2023, 6, 7, 14, 0, 0, 0⟩ ⟨2023, 6, 7, 15, 0, 0, 0⟩
            none false false)
        = Except.ok
            { Calendar.init with
                reminders := Calendar.init.reminders ++
                  [Reminder.init "Meeting" ⟨2023, 6, 7, 14, 0, 0, 0⟩
                    ⟨2023, 6, 7, 15, 0, 0, 0⟩ none false false] }) := by
  intro h
  rw [show Calendar.init.add_reminder
        (Reminder.init "Meeting" ⟨2023, 6, 7, 14, 0, 0, 0⟩ ⟨2023, 6, 7, 15, 0, 0, 0⟩
          none false false)
      = Except.error
          "TypeError: add_reminder() takes 1 positional argument but 2 were given"
    from rfl] at h
  exact Except.noConfusion h

/-- C2 as amended: the body of the first `add_reminder` definition (lines
64-65) appends its argument at the end of `reminders` and changes nothing
else; but the class body binds the name `add_reminder` twice and the
interactive definition wins, so every call of `add_reminder` with a reminder
argument raises `TypeError` and returns no calendar. -/
theorem C2_add_reminder_amended :
    (∀ (c : Calendar) (r : Reminder),
        (c.add_reminder_programmatic r).reminders = c.reminders ++ [r] ∧
        (c.add_reminder_programmatic r).completed_tasks = c.completed_tasks) ∧
    add_reminder_defs.length = 2 ∧
    add_reminder_binding = some AddReminderDef.interactive ∧
    (∀ (c : Calendar) (r : Reminder),
        c.add_reminder r
          = Except.error
              "TypeError: add_reminder() takes 1 positional argument but 2 were given") :=
  ⟨fun _ _ => ⟨rfl, rfl⟩, rfl, rfl, fun _ _ => rfl⟩

/-- C1: the save/load round trip is broken in the code.  `Calendar`'s class
body binds no name `deserialize`, yet `load_reminders_from_file` evaluates
`cls.deserialize(data)`; so loading any file that `save_reminders_to_file`
has just written raises `AttributeError` instead of returning the saved
Calendar. -/
theorem C1_load_after_save_raises (c : Calendar) (filename : String) :
    calendarMethods.contains "deserialize" = false ∧
    Calendar.load_reminders_from_file (c.save_reminders_to_file filename).2
      = Except.error
          "AttributeError: type object \x27Calendar\x27 has no attribute \x27deserialize\x27" :=
  ⟨by decide, rfl⟩

/-- C8 counterexample: a calendar holding one reminder object, and a second,
distinct reminder object with identical state.  `remove_reminder` with the
distinct twin raises `ValueError` — first-structurally-equal removal would
have returned the empty list. -/
theorem C8_structural_equality_cex :
    ({ addr := 0,
       state := Reminder.init "Meeting" ⟨2023, 6, 7, 14, 0, 0, 0⟩
         ⟨2023, 6, 7, 15, 0, 0, 0⟩ none false false } : ReminderRef).state
      = ({ addr := 1,
           state := Reminder.init "Meeting" ⟨2023, 6, 7, 14, 0, 0, 0⟩
             ⟨2023, 6, 7, 15, 0, 0, 0⟩ none false false } : ReminderRef).state ∧
    ¬ (Calendar.remove_reminder
          [{ addr := 0,
             state := Reminder.init "Meeting" ⟨2023, 6, 7, 14, 0, 0, 0⟩
               ⟨2023, 6, 7, 15, 0, 0, 0⟩ none false false }]
          { addr := 1,
            state := Reminder.init "Meeting" ⟨2023, 6, 7, 14, 0, 0, 0⟩
              ⟨2023, 6, 7, 15, 0, 0, 0⟩ none false false }
        = Except.ok []) := by
  refine ⟨rfl, ?_⟩
  intro h
  rw [show Calendar.remove_reminder
        [{ addr := 0,
           state := Reminder.init "Meeting" ⟨2023, 6, 7, 14, 0, 0, 0⟩
             ⟨2023, 6, 7, 15, 0, 0, 0⟩ none false false }]
        { addr := 1,
          state := Reminder.init "Meeting" ⟨2023, 6, 7, 14, 0, 0, 0⟩
            ⟨2023, 6, 7, 15, 0, 0, 0⟩ none false false }
      = Except.error "ValueError: list.remove(x): x not in list" from rfl] at h
  exact Except.noConfusion h

/-- C8 as amended: `remove_reminder(r)` removes the first element of
`reminders` that is the same object as `r` — `Reminder` defines no `__eq__`,
so Python `==` between reminders is identity — and raises `ValueError` when
no element is `r`; the reminders list is unchanged on failure, and a
structurally equal but distinct reminder is never what gets matched. -/
theorem C8_remove_by_identity (l : List ReminderRef) (r : ReminderRef) :
    ((∀ x ∈ l, x.addr ≠ r.addr) →
      Calendar.remove_reminder l r
        = Except.error "ValueError: list.remove(x): x not in list") ∧
    (∀ pre x post, l = pre ++ x :: post → (∀ y ∈ pre, y.addr ≠ r.addr) →
      x.addr = r.addr →
      Calendar.remove_reminder l r = Except.ok (pre ++ post)) := by
  constructor
  · intro hall
    induction l with
    | nil => rfl
    | cons y ys ih =>
        have hy : (y.addr == r.addr) = false := by
          simp [hall y (List.mem_cons_self y ys)]
        have hys := ih (fun x hx => hall x (List.mem_cons_of_mem y hx))
        simp only [Calendar.remove_reminder, listRemove, ReminderRef.pyEq, hy,
          Bool.false_eq_true, if_false] at *
        rw [hys]
  · intro pre x post hl hpre hx
    subst hl
    induction pre with
    | nil =>
        have hxr : (x.addr == r.addr) = true := by simp [hx]
        simp [Calendar.remove_reminder, listRemove, ReminderRef.pyEq, hxr]
    | cons y ys ih =>
        have hy : (y.addr == r.addr) = false := by
          simp [hpre y (List.mem_cons_self y ys)]
        have hys := ih (fun z hz => hpre z (List.mem_cons_of_mem y hz))
        simp only [Calendar.remove_reminder, listRemove, ReminderRef.pyEq, hy,
          Bool.false_eq_true, if_false, List.cons_append, List.append_eq] at *
        rw [hys]

/-- Witness for C8 as amended: removing the second of two reminder objects
by its own reference succeeds and keeps the first. -/
theorem C8_remove_by_identity_witness :
    Calendar.remove_reminder
        [{ addr := 0,
           state := Reminder.init "Meeting" ⟨2023, 6, 7, 14, 0, 0, 0⟩
             ⟨2023, 6, 7, 15, 0, 0, 0⟩ none false false },
         { addr := 1,
           state := Reminder.init "Exercise" ⟨2023, 6, 8, 8, 0, 0, 0⟩
             ⟨2023, 6, 8, 9, 0, 0, 0⟩ none false false }]
        { addr := 1,
          state := Reminder.init "Exercise" ⟨2023, 6, 8, 8, 0, 0, 0⟩
            ⟨2023, 6, 8, 9, 0, 0, 0⟩ none false false }
      = Except.ok
          [{ addr := 0,
             state := Reminder.init "Meeting" ⟨2023, 6, 7, 14, 0, 0, 0⟩
               ⟨2023, 6, 7, 15, 0, 0, 0⟩ none false false }] := by
  have h := (C8_remove_by_identity
    [{ addr := 0,
       state := Reminder.init "Meeting" ⟨2023, 6, 7, 14, 0, 0, 0⟩
         ⟨2023, 6, 7, 15, 0, 0, 0⟩ none false false },
     { addr := 1,
       state := Reminder.init "Exercise" ⟨2023, 6, 8, 8, 0, 0, 0⟩
         ⟨2023, 6, 8, 9, 0, 0, 0⟩ none false false }]
    { addr := 1,
      state := Reminder.init "Exercise" ⟨2023, 6, 8, 8, 0, 0, 0⟩
        ⟨2023, 6, 8, 9, 0, 0, 0⟩ none false false }).2
    [{ addr := 0,
       state := Reminder.init "Meeting" ⟨2023, 6, 7, 14, 0, 0, 0⟩
         ⟨2023, 6, 7, 15, 0, 0, 0⟩ none false false }]
    { addr := 1,
      state := Reminder.init "Exercise" ⟨2023, 6, 8, 8, 0, 0, 0⟩
        ⟨2023, 6, 8, 9, 0, 0, 0⟩ none false false }
    [] rfl (by decide) rfl
  simpa using h
